import Mathlib

/-!
Verification development for the CodeMaster core (src/core/database.py,
src/core/lifecycle.py, src/features/payments.py, src/features/referral.py).

The relational store is embedded shallowly: each SQLite table is a list of
rows, and each Python method of `Database` / `LifecycleEngine` /
`PaymentProcessor` / `ReferralSystem` becomes a Lean function from the
durable database state to the new durable state (plus its return value).

Connection semantics.  Every method opens its own `aiosqlite` connection
with `isolation_level='IMMEDIATE'` via `async with await self.connect() as
db:`; the context manager closes the connection on exit and closing without
`commit()` rolls the pending writes back.  This is modelled explicitly:
`commit pending` makes the pending writes durable, `rollback base pending`
discards them and returns the state from before the connection's writes.
In particular `Database.log_days_transaction` and `Database.log_audit` open
a fresh connection of their own, INSERT, and never call commit, so their
inserts are rolled back when the connection closes.

Timestamps are modelled at day granularity as integers (an explicit `now`
parameter replaces `datetime.utcnow()` / `CURRENT_TIMESTAMP`;
`timedelta(days=d)` is `+ d`, `JULIANDAY(a) - JULIANDAY(b)` is `a - b`).
Columns that no modelled behaviour reads (usernames, metadata JSON, audit
details payloads, the `bots` and `cohort_metrics` tables) are omitted.
-/

namespace CodeMaster

/-- Row of the `users` table (fields used by the core logic). -/
structure User where
  user_id : Nat
  telegram_id : Int
  referrer_id : Option Nat
  is_sub_active : Bool
  deriving Repr, DecidableEq

/-- Row of the `user_balances` table.  `total_active_days` is a generated
column, modelled as the function `totalActiveDays` below, never stored. -/
structure Balance where
  user_id : Nat
  trial_days : Int
  paid_until : Option Int
  bonus_days : Int
  current_status : String
  status_changed_at : Int
  is_premium : Bool
  premium_since : Option Int
  last_billing_date : Option Int
  deriving Repr, DecidableEq

/-- Row of the append-only `days_transactions` table. -/
structure DaysTransaction where
  user_id : Nat
  transaction_type : String
  days_change : Int
  balance_type : String
  new_balance : Int
  deriving Repr, DecidableEq

/-- Row of the `referral_events` table; `referred_id` carries a UNIQUE
constraint in the schema. -/
structure ReferralEvent where
  event_id : Nat
  referrer_id : Nat
  referred_id : Nat
  event_type : String
  reward_granted : Bool
  reward_type : Option String
  days_awarded : Option Int
  pending_until : Option Int
  created_at : Int
  deriving Repr, DecidableEq

/-- Row of the `payments` table. -/
structure Payment where
  payment_id : Nat
  user_id : Nat
  amount : Int
  currency : String
  payment_method : String
  payment_status : String
  telegram_payment_charge_id : Option String
  days_awarded : Int
  created_at : Int
  completed_at : Option Int
  deriving Repr, DecidableEq

/-- Row of the `audit_log` table (the JSON `details` payload is not
modelled; no business logic reads it). -/
structure AuditEntry where
  user_id : Option Nat
  action : String
  deriving Repr, DecidableEq

/-- The durable database state: the six tables of the schema that the core
logic touches, plus the autoincrement counters. -/
structure DB where
  users : List User
  user_balances : List Balance
  days_transactions : List DaysTransaction
  referral_events : List ReferralEvent
  payments : List Payment
  audit_log : List AuditEntry
  next_user_id : Nat
  next_event_id : Nat
  next_payment_id : Nat
  deriving Repr, DecidableEq

/-- The empty database produced by `init_db`. -/
def emptyDB : DB :=
  { users := [], user_balances := [], days_transactions := [],
    referral_events := [], payments := [], audit_log := [],
    next_user_id := 1, next_event_id := 1, next_payment_id := 1 }

/-- SELECT of a `users` row by primary key. -/
def findUser (db : DB) (uid : Nat) : Option User :=
  db.users.find? (fun u => u.user_id == uid)

/-- SELECT of a `user_balances` row by primary key. -/
def findBalance (db : DB) (uid : Nat) : Option Balance :=
  db.user_balances.find? (fun b => b.user_id == uid)

/-- SELECT of a `payments` row by primary key. -/
def findPayment (db : DB) (pid : Nat) : Option Payment :=
  db.payments.find? (fun p => p.payment_id == pid)

/-- UPDATE `user_balances` SET ... WHERE user_id = uid: applies `f` to every
matching row (a no-op when no row matches, exactly as in SQL). -/
def updBalance (db : DB) (uid : Nat) (f : Balance → Balance) : DB :=
  { db with user_balances :=
      db.user_balances.map (fun b => if b.user_id == uid then f b else b) }

/-- COALESCE on a nullable column: the stored value when non-NULL, the
fallback otherwise. -/
def coalesce (v : Option Int) (fallback : Int) : Int :=
  match v with
  | some t => t
  | none => fallback

/-- The `total_active_days` generated column of `user_balances`:
`trial_days + COALESCE(MAX(0, JULIANDAY(paid_until) - JULIANDAY('now')), 0)
+ bonus_days`. -/
def totalActiveDays (b : Balance) (now : Int) : Int :=
  b.trial_days +
    (match b.paid_until with
     | some t => max 0 (t - now)
     | none => 0) +
    b.bonus_days

/-- Commit of a connection: its pending writes become the durable state. -/
def commit (pending : DB) : DB := pending

/-- Close of a connection without commit: the pending writes are rolled
back and the durable state is the one from before the writes. -/
def rollback (base : DB) (_pending : DB) : DB := base

/-- The row that `Database.log_days_transaction` INSERTs into
`days_transactions`. -/
def mkDaysTransaction (uid : Nat) (ttype : String) (change : Int)
    (btype : String) (newBal : Int) : DaysTransaction :=
  { user_id := uid, transaction_type := ttype, days_change := change,
    balance_type := btype, new_balance := newBal }

/-- Database.log_days_transaction: opens a fresh connection of its own
(`async with await self.connect() as db`), INSERTs the transaction row, and
lets the connection close without ever calling `commit()`, so the insert is
rolled back and the durable database is unchanged. -/
def log_days_transaction (db : DB) (uid : Nat) (ttype : String)
    (change : Int) (btype : String) (newBal : Int) : DB :=
  rollback db
    { db with days_transactions :=
        db.days_transactions ++ [mkDaysTransaction uid ttype change btype newBal] }

/-- Database.log_audit: like `log_days_transaction`, it opens a fresh
connection, INSERTs into `audit_log`, and closes without commit, so the
insert is rolled back. -/
def log_audit (db : DB) (uid : Option Nat) (action : String) : DB :=
  rollback db
    { db with audit_log := db.audit_log ++ [{ user_id := uid, action := action }] }

/-- Database.create_or_update_user: if a user with this `telegram_id`
exists, UPDATE its profile columns (none of which are modelled) and return
its id; otherwise INSERT a `users` row and a `user_balances` row
(`INSERT INTO user_balances (user_id) VALUES (?)`, so every other column
takes its schema default: trial_days 10, paid_until NULL, bonus_days 0,
current_status 'frozen', is_premium 0, premium_since NULL), write a
USER_REGISTERED audit entry (rolled back, see `log_audit`) and commit. -/
def create_or_update_user (db : DB) (telegram_id : Int)
    (referrer_id : Option Nat) (now : Int) : DB × Nat :=
  match db.users.find? (fun u => u.telegram_id == telegram_id) with
  | some u => (commit db, u.user_id)
  | none =>
    let uid := db.next_user_id
    let u : User :=
      { user_id := uid, telegram_id := telegram_id,
        referrer_id := referrer_id, is_sub_active := false }
    let bal : Balance :=
      { user_id := uid, trial_days := 10, paid_until := none, bonus_days := 0,
        current_status := "frozen", status_changed_at := now,
        is_premium := false, premium_since := none, last_billing_date := none }
    let db1 :=
      { db with users := db.users ++ [u],
                user_balances := db.user_balances ++ [bal],
                next_user_id := uid + 1 }
    let db2 := log_audit db1 (some uid) "USER_REGISTERED"
    (commit db2, uid)

/-- Database.update_subscription_status: UPDATE `users.is_sub_active`,
commit, then write a SUBSCRIPTION_CHANGED audit entry (rolled back). -/
def update_subscription_status (db : DB) (uid : Nat) (is_active : Bool) : DB :=
  let db1 := commit
    { db with users :=
        db.users.map (fun u =>
          if u.user_id == uid then { u with is_sub_active := is_active } else u) }
  log_audit db1 (some uid) "SUBSCRIPTION_CHANGED"

/-- Database.add_trial_days: SELECT the current `trial_days` (0 when the
balance row is missing), UPDATE it to `current + days` (a no-op when no row
matches), log the TRIAL_ADD transaction row (rolled back, see
`log_days_transaction`), and commit. -/
def add_trial_days (db : DB) (uid : Nat) (days : Int) : DB :=
  let current :=
    match findBalance db uid with
    | some b => b.trial_days
    | none => 0
  let new_balance := current + days
  let db1 := updBalance db uid (fun b => { b with trial_days := new_balance })
  let db2 := log_days_transaction db1 uid "TRIAL_ADD" days "trial" new_balance
  commit db2

/-- Database.add_paid_days: SELECT `paid_until` (defaulting to now when the
row or the column is missing), set it to `max(now, current) + days`, log the
PAID_ADD transaction row (rolled back), and commit. -/
def add_paid_days (db : DB) (uid : Nat) (days : Int) (now : Int) : DB :=
  let current_until :=
    match findBalance db uid with
    | some b => coalesce b.paid_until now
    | none => now
  let new_until := max now current_until + days
  let db1 := updBalance db uid (fun b => { b with paid_until := some new_until })
  let db2 := log_days_transaction db1 uid "PAID_ADD" days "paid" days
  commit db2

/-- Database.add_bonus_days: SELECT the current `bonus_days` (0 when the
row is missing); when `current + days >= 30` UPDATE bonus_days together
with `is_premium = 1` and `premium_since = COALESCE(premium_since,
CURRENT_TIMESTAMP)`, otherwise UPDATE bonus_days alone; log the BONUS_ADD
transaction row (rolled back) and commit. -/
def add_bonus_days (db : DB) (uid : Nat) (days : Int) (now : Int) : DB :=
  let current :=
    match findBalance db uid with
    | some b => b.bonus_days
    | none => 0
  let new_balance := current + days
  let db1 :=
    if new_balance ≥ 30 then
      updBalance db uid (fun b =>
        { b with bonus_days := new_balance, is_premium := true,
                 premium_since := some (coalesce b.premium_since now) })
    else
      updBalance db uid (fun b => { b with bonus_days := new_balance })
  let db2 := log_days_transaction db1 uid "BONUS_ADD" days "bonus" new_balance
  commit db2

/-- The bonus / expired tail of `Database.consume_day` (the `elif
bonus_days > 0` and `else` branches).  In the `else` branch the code
executes `UPDATE user_balances SET current_status = 'expired',
status_changed_at = CURRENT_TIMESTAMP`, writes the DAYS_EXPIRED audit entry
(rolled back, see `log_audit`) and then `return False` without ever
reaching `await db.commit()`, so the connection closes and the status
update is rolled back as well. -/
def consume_day_bonus_or_expired (db : DB) (uid : Nat) (now : Int)
    (b : Balance) : DB × Bool :=
  if b.bonus_days > 0 then
    let new_bonus := b.bonus_days - 1
    let db1 := updBalance db uid (fun x => { x with bonus_days := new_bonus })
    let db2 := log_days_transaction db1 uid "DAILY_CONSUMPTION" (-1) "bonus" new_bonus
    let db3 := updBalance db2 uid (fun x => { x with last_billing_date := some now })
    (commit db3, true)
  else
    let pending := updBalance db uid (fun x =>
      { x with current_status := "expired", status_changed_at := now })
    let pending2 := log_audit pending uid "DAYS_EXPIRED"
    (rollback db pending2, false)

/-- Database.consume_day: deduct one day in the order trial, then paid,
then bonus; a missing balance row returns False before any write.  Each
successful branch logs a DAILY_CONSUMPTION transaction row (rolled back),
stamps `last_billing_date` and commits; the exhausted branch is
`consume_day_bonus_or_expired`. -/
def consume_day (db : DB) (uid : Nat) (now : Int) : DB × Bool :=
  match findBalance db uid with
  | none => (db, false)
  | some b =>
    if b.trial_days > 0 then
      let new_trial := b.trial_days - 1
      let db1 := updBalance db uid (fun x => { x with trial_days := new_trial })
      let db2 := log_days_transaction db1 uid "DAILY_CONSUMPTION" (-1) "trial" new_trial
      let db3 := updBalance db2 uid (fun x => { x with last_billing_date := some now })
      (commit db3, true)
    else
      match b.paid_until with
      | some t =>
        if t > now then
          let new_paid := t - 1
          let db1 := updBalance db uid (fun x => { x with paid_until := some new_paid })
          let remaining := max 0 (new_paid - now)
          let db2 := log_days_transaction db1 uid "DAILY_CONSUMPTION" (-1) "paid" remaining
          let db3 := updBalance db2 uid (fun x => { x with last_billing_date := some now })
          (commit db3, true)
        else consume_day_bonus_or_expired db uid now b
      | none => consume_day_bonus_or_expired db uid now b

/-- Database.create_referral_event: INSERT a referral edge with
`pending_until = now + pending_days`.  The UNIQUE constraint on
`referred_id` makes the INSERT raise `IntegrityError` when an edge for this
referred id already exists; the handler returns False in that case, True
after a committed insert. -/
def create_referral_event (db : DB) (referrer_id referred_id : Nat)
    (event_type : String) (pending_days : Int) (now : Int) : DB × Bool :=
  if db.referral_events.any (fun e => e.referred_id == referred_id) then
    (db, false)
  else
    let e : ReferralEvent :=
      { event_id := db.next_event_id, referrer_id := referrer_id,
        referred_id := referred_id, event_type := event_type,
        reward_granted := false, reward_type := none, days_awarded := none,
        pending_until := some (now + pending_days), created_at := now }
    (commit { db with referral_events := db.referral_events ++ [e],
                      next_event_id := db.next_event_id + 1 }, true)

/-- Database.mark_referral_rewarded: UPDATE the event row by id, setting
`reward_granted = 1`, the reward kind and days, and clearing
`pending_until`; committed. -/
def mark_referral_rewarded (db : DB) (event_id : Nat) (reward_type : String)
    (days_awarded : Int) : DB :=
  commit { db with referral_events :=
    db.referral_events.map (fun e =>
      if e.event_id == event_id then
        { e with reward_granted := true, reward_type := some reward_type,
                 days_awarded := some days_awarded, pending_until := none }
      else e) }

/-- Database.get_pending_referrals: SELECT events with an elapsed
`pending_until` and `reward_granted = 0`. -/
def get_pending_referrals (db : DB) (now : Int) : List ReferralEvent :=
  db.referral_events.filter (fun e =>
    match e.pending_until with
    | some t => t ≤ now && e.reward_granted == false
    | none => false)

/-- Database.create_payment: INSERT a `payments` row with status
'pending', write a PAYMENT_CREATED audit entry (rolled back) and commit;
returns the new payment id. -/
def create_payment (db : DB) (uid : Nat) (amount : Int)
    (currency payment_method : String) (days_awarded : Int) (now : Int) :
    DB × Nat :=
  let pid := db.next_payment_id
  let p : Payment :=
    { payment_id := pid, user_id := uid, amount := amount,
      currency := currency, payment_method := payment_method,
      payment_status := "pending", telegram_payment_charge_id := none,
      days_awarded := days_awarded, created_at := now, completed_at := none }
  let db1 := { db with payments := db.payments ++ [p], next_payment_id := pid + 1 }
  let db2 := log_audit db1 (some uid) "PAYMENT_CREATED"
  (commit db2, pid)

/-- Database.update_payment_status: UPDATE the payment row by id, setting
the status, `completed_at = CURRENT_TIMESTAMP` and, when a charge id is
given, `telegram_payment_charge_id`; write a PAYMENT_UPDATED audit entry
(rolled back) and commit. -/
def update_payment_status (db : DB) (payment_id : Nat) (status : String)
    (telegram_charge_id : Option String) (now : Int) : DB :=
  let db1 :=
    { db with payments :=
        db.payments.map (fun p =>
          if p.payment_id == payment_id then
            { p with payment_status := status, completed_at := some now,
                     telegram_payment_charge_id :=
                       match telegram_charge_id with
                       | some c => some c
                       | none => p.telegram_payment_charge_id }
          else p) }
  let db2 := log_audit db1 none "PAYMENT_UPDATED"
  commit db2

/-- Database.cleanup_expired_users: select the users whose balance row has
been in status 'expired' for at least `days_to_keep` days, delete their
bots (the `bots` table is not modelled), set their status to 'deleted' and
write an audit entry each (rolled back); commits.  `user_id` is the primary
key of `user_balances`, so the per-id UPDATE loop coincides with a single
filtered map. -/
def cleanup_expired_users (db : DB) (days_to_keep : Int) (now : Int) :
    DB × Nat :=
  let expired_pred := fun (b : Balance) =>
    b.current_status == "expired" && b.status_changed_at ≤ now - days_to_keep
  let n := (db.user_balances.filter expired_pred).length
  (commit { db with user_balances :=
      db.user_balances.map (fun b =>
        if expired_pred b then { b with current_status := "deleted" } else b) }, n)

/-- LifecycleEngine._update_user_premium_status: on its own connection,
UPDATE `is_premium` (together with `premium_since = COALESCE(premium_since,
CURRENT_TIMESTAMP)` when setting it) and commit. -/
def update_user_premium_status (db : DB) (uid : Nat) (is_premium : Bool)
    (now : Int) : DB :=
  if is_premium then
    commit (updBalance db uid (fun b =>
      { b with is_premium := true,
               premium_since := some (coalesce b.premium_since now) }))
  else
    commit (updBalance db uid (fun b => { b with is_premium := false }))

/-- LifecycleEngine._update_user_status: on its own connection, UPDATE
`current_status` and `status_changed_at` and commit. -/
def update_user_status (db : DB) (uid : Nat) (status : String) (now : Int) : DB :=
  commit (updBalance db uid (fun b =>
    { b with current_status := status, status_changed_at := now }))

/-- LifecycleEngine._set_user_expired: on its own connection, UPDATE
`current_status = 'expired'` with `status_changed_at` and commit. -/
def set_user_expired (db : DB) (uid : Nat) (now : Int) : DB :=
  update_user_status db uid "expired" now

/-- LifecycleEngine._handle_status_change: on frozen-to-active or
active-to-frozen transitions it pauses or resumes every bot of the user
(the `bots` table is outside this model) and writes a BOTS_PAUSED or
BOTS_RESUMED audit entry (rolled back, see `log_audit`); other transitions
do nothing. -/
def handle_status_change (db : DB) (uid : Nat) (old_status : Option String)
    (new_status : String) : DB :=
  if (old_status == some "frozen" && new_status == "active") ||
     (old_status == some "active" && new_status == "frozen") then
    log_audit db (some uid)
      (if new_status == "active" then "BOTS_RESUMED" else "BOTS_PAUSED")
  else db

/-- Tail of LifecycleEngine.get_user_status: compare the computed status
with the `current_status` read at entry (`user.get("current_status")`,
which is NULL when the user has no balance row); when they differ, persist
the new status, write a STATUS_CHANGED audit entry (rolled back) and run
the status-change side effects. -/
def status_change_tail (db : DB) (uid : Nat) (b0 : Option Balance)
    (status : String) (now : Int) : DB :=
  let current_status : Option String := b0.map (fun b => b.current_status)
  if some status ≠ current_status then
    let db1 := update_user_status db uid status now
    let db2 := log_audit db1 (some uid) "STATUS_CHANGED"
    handle_status_change db2 uid current_status status
  else db

/-- LifecycleEngine.get_user_status, after a cache miss (the short-lived
in-process memo only skips recomputation and is not part of the durable
state; this model always takes the recompute path).  A missing user returns
'deleted'.  When the `is_subscribed` argument differs from the stored flag,
the flag is persisted first.  Unsubscribed users are 'frozen'; subscribed
users with positive `total_active_days` are 'active' and get their premium
flag recomputed strictly from `bonus_days >= 30`; otherwise the status is
'expired' and persisted when new.  A subscribed user without a balance row
makes `user.get("total_active_days", 0)` return None and `total_days > 0`
raise TypeError, modelled as the error case. -/
def get_user_status (db : DB) (uid : Nat) (is_subscribed_arg : Option Bool)
    (now : Int) : DB × Except String String :=
  match findUser db uid with
  | none => (db, .ok "deleted")
  | some u =>
    let b0 := findBalance db uid
    let dbs :=
      match is_subscribed_arg with
      | none => (db, u.is_sub_active)
      | some s =>
        if s != u.is_sub_active then (update_subscription_status db uid s, s)
        else (db, s)
    let db1 := dbs.1
    let is_subscribed := dbs.2
    if !is_subscribed then
      (status_change_tail db1 uid b0 "frozen" now, .ok "frozen")
    else
      match b0 with
      | none => (db1, .error "TypeError: NoneType comparison")
      | some b =>
        if totalActiveDays b now > 0 then
          let is_premium := decide (b.bonus_days ≥ 30)
          let db2 :=
            if is_premium != b.is_premium then
              update_user_premium_status db1 uid is_premium now
            else db1
          (status_change_tail db2 uid b0 "active" now, .ok "active")
        else
          let db2 :=
            if b.current_status != "expired" then set_user_expired db1 uid now
            else db1
          (status_change_tail db2 uid b0 "expired" now, .ok "expired")

/-- LifecycleEngine.add_days_to_user: dispatch on the days type to the
matching grant ('trial' / 'paid' / 'bonus'; anything else raises
ValueError), then refresh the status via `get_user_status` and send a
notification (external, no durable effect); returns True on success.  The
whole body sits in a try/except that logs an ADD_DAYS_ERROR audit entry
(rolled back) and returns False — note that when `get_user_status` raises,
the grant has already committed. -/
def add_days_to_user (db : DB) (uid : Nat) (days : Int) (days_type : String)
    (now : Int) : DB × Bool :=
  let granted : Option DB :=
    if days_type == "trial" then some (add_trial_days db uid days)
    else if days_type == "paid" then some (add_paid_days db uid days now)
    else if days_type == "bonus" then some (add_bonus_days db uid days now)
    else none
  match granted with
  | none => (log_audit db (some uid) "ADD_DAYS_ERROR", false)
  | some db1 =>
    match get_user_status db1 uid none now with
    | (db2, .ok _) => (db2, true)
    | (db2, .error _) => (log_audit db2 (some uid) "ADD_DAYS_ERROR", false)

/-- PaymentProcessor._process_referral_payment: look the payer up; when a
referrer exists, grant 15 bonus days to the referrer and 10 to the payer
(each committed through `add_days_to_user`), then call
`db.mark_referral_payment_event(user_id, referrer_id)` — a method that does
not exist on `Database`, so the call raises AttributeError, which the
surrounding `except Exception` swallows after the grants have committed. -/
def mark_referral_payment_event (_db : DB) : Except String DB :=
  .error "AttributeError: Database has no attribute mark_referral_payment_event"

/-- PaymentProcessor._process_referral_payment (see
`mark_referral_payment_event` for the trailing AttributeError). -/
def process_referral_payment (db : DB) (uid : Nat) (now : Int) : DB :=
  match findUser db uid with
  | none => db
  | some u =>
    match u.referrer_id with
    | none => db
    | some referrer_id =>
      let db1 := (add_days_to_user db referrer_id 15 "bonus" now).1
      let db2 := (add_days_to_user db1 uid 10 "bonus" now).1
      match mark_referral_payment_event db2 with
      | .ok db3 => db3
      | .error _ => db2

/-- The first statement of process_tbank_callback's success branch,
`conn.row_factory = aiosqlite.Row`: payments.py never imports `aiosqlite`,
so evaluating the name raises NameError before the payment SELECT runs. -/
def aiosqlite_row_factory_in_payments : Except String Unit :=
  .error "NameError: name aiosqlite is not defined"

/-- The success branch of PaymentProcessor.process_tbank_callback exactly
as written: open a connection, set the row factory — which raises, see
`aiosqlite_row_factory_in_payments` — and then, unreachably, SELECT the
payment by `order_id`, transition it to 'success' with no check of its
current status, grant the paid days via `add_days_to_user`, and run the
referral path. -/
def tbank_success_branch (db : DB) (order_id : Nat)
    (transaction_id : Option String) (now : Int) :
    Except String (DB × Bool × String) :=
  match aiosqlite_row_factory_in_payments with
  | .error e => .error e
  | .ok _ =>
    match findPayment db order_id with
    | none => .ok (db, false, "payment_not_found")
    | some payment =>
      let db1 := update_payment_status db order_id "success" transaction_id now
      let r := add_days_to_user db1 payment.user_id payment.days_awarded "paid" now
      if r.2 then
        .ok (process_referral_payment r.1 payment.user_id now, true, "processed")
      else .ok (r.1, false, "grant_failed")

/-- PaymentProcessor.process_tbank_callback.  Signature verification
(`_validate_tbank_signature`, an HMAC recomputation with constant-time
comparison) is modelled as the boolean `sign_valid` input; an invalid
signature is rejected without side effects.  The whole body sits in a
try/except that turns any exception into a (False, error-message) result;
on the success branch the NameError from the unbound `aiosqlite` fires
before the payment lookup, so no success callback ever reaches the lookup,
the status update or the credit.  'failed' and 'canceled' touch only the
imported `db` handle and do transition the payment to 'failed'.  Result
messages are abbreviated to stable tags (the source returns Russian
prose). -/
def process_tbank_callback (db : DB) (sign_valid : Bool) (order_id : Nat)
    (status : String) (transaction_id : Option String) (now : Int) :
    DB × Bool × String :=
  if !sign_valid then (db, false, "bad_signature")
  else if status == "success" then
    match tbank_success_branch db order_id transaction_id now with
    | .ok r => r
    | .error e => (db, false, "processing_error: " ++ e)
  else if status == "failed" || status == "canceled" then
    (update_payment_status db order_id "failed" none now, false, "canceled")
  else (db, false, "unknown_status")

/-- Projection of a user's trial days, when the balance row exists. -/
def trial_days_of (db : DB) (uid : Nat) : Option Int :=
  (findBalance db uid).map (fun b => b.trial_days)

/-- Projection of a user's paid_until column, when the balance row exists. -/
def paid_until_of (db : DB) (uid : Nat) : Option (Option Int) :=
  (findBalance db uid).map (fun b => b.paid_until)

/-- Projection of a user's bonus days, when the balance row exists. -/
def bonus_days_of (db : DB) (uid : Nat) : Option Int :=
  (findBalance db uid).map (fun b => b.bonus_days)

/-- Projection of a user's stored status, when the balance row exists. -/
def status_of (db : DB) (uid : Nat) : Option String :=
  (findBalance db uid).map (fun b => b.current_status)

/-- Projection of a user's premium flag, when the balance row exists. -/
def is_premium_of (db : DB) (uid : Nat) : Option Bool :=
  (findBalance db uid).map (fun b => b.is_premium)

/-- Projection of a user's premium_since column, when the balance row
exists. -/
def premium_since_of (db : DB) (uid : Nat) : Option (Option Int) :=
  (findBalance db uid).map (fun b => b.premium_since)

/-- Fixture for C1: one registered user with ten trial days and an empty
transaction log. -/
def c1db : DB :=
  { emptyDB with
      users := [{ user_id := 1, telegram_id := 100, referrer_id := none,
                  is_sub_active := true }],
      user_balances := [{ user_id := 1, trial_days := 10, paid_until := none,
                          bonus_days := 0, current_status := "frozen",
                          status_changed_at := 0, is_premium := false,
                          premium_since := none, last_billing_date := none }],
      next_user_id := 2 }

/-- Fixture for C5: a subscribed user whose three sources are all
exhausted, currently stored as 'active', with an empty audit log. -/
def c5db : DB :=
  { emptyDB with
      users := [{ user_id := 1, telegram_id := 100, referrer_id := none,
                  is_sub_active := true }],
      user_balances := [{ user_id := 1, trial_days := 0, paid_until := none,
                          bonus_days := 0, current_status := "active",
                          status_changed_at := 0, is_premium := false,
                          premium_since := none, last_billing_date := none }],
      next_user_id := 2 }

/-- Fixture balance for C4: two trial days, no paid period, five bonus
days. -/
def c4bal : Balance :=
  { user_id := 1, trial_days := 2, paid_until := none, bonus_days := 5,
    current_status := "active", status_changed_at := 0, is_premium := false,
    premium_since := none, last_billing_date := none }

/-- Fixture for C4. -/
def c4db : DB :=
  { emptyDB with
      users := [{ user_id := 1, telegram_id := 100, referrer_id := none,
                  is_sub_active := true }],
      user_balances := [c4bal],
      next_user_id := 2 }

/-- First of three consecutive daily consumptions on the C4 fixture. -/
def c4s1 : DB × Bool := consume_day c4db 1 100

/-- Second consecutive daily consumption on the C4 fixture. -/
def c4s2 : DB × Bool := consume_day c4s1.1 1 101

/-- Third consecutive daily consumption on the C4 fixture. -/
def c4s3 : DB × Bool := consume_day c4s2.1 1 102

/-- Fixture balance for C6: a user with no paid period. -/
def c6bal : Balance :=
  { user_id := 1, trial_days := 0, paid_until := none, bonus_days := 0,
    current_status := "active", status_changed_at := 0, is_premium := false,
    premium_since := none, last_billing_date := none }

/-- Fixture for C6. -/
def c6db : DB :=
  { emptyDB with
      users := [{ user_id := 1, telegram_id := 100, referrer_id := none,
                  is_sub_active := true }],
      user_balances := [c6bal],
      next_user_id := 2 }

/-- Fixture for C2, duplicate side: a subscribed user whose only payment
(id 1, 30 days) has already been processed: status 'success', charge id
recorded, completed_at 5, and the ledger already credited (paid_until 40
at now = 10). -/
def c2db : DB :=
  { emptyDB with
      users := [{ user_id := 1, telegram_id := 100, referrer_id := none,
                  is_sub_active := true }],
      user_balances := [{ user_id := 1, trial_days := 0,
                          paid_until := some 40, bonus_days := 0,
                          current_status := "active",
                          status_changed_at := 0, is_premium := false,
                          premium_since := none,
                          last_billing_date := none }],
      payments := [{ payment_id := 1, user_id := 1, amount := 199,
                     currency := "RUB", payment_method := "tbank",
                     payment_status := "success",
                     telegram_payment_charge_id := some "ch1",
                     days_awarded := 30, created_at := 0,
                     completed_at := some 5 }],
      next_user_id := 2, next_payment_id := 2 }

/-- Replay of the success callback for the already-successful payment of
the C2 fixture. -/
def c2res : DB × Bool × String :=
  process_tbank_callback c2db true 1 "success" (some "ch1") 10

/-- Fixture for C2, pending side: the same store with payment 1 still
'pending', no charge id, and the ledger not yet credited. -/
def c2dbPending : DB :=
  { emptyDB with
      users := [{ user_id := 1, telegram_id := 100, referrer_id := none,
                  is_sub_active := true }],
      user_balances := [{ user_id := 1, trial_days := 0,
                          paid_until := none, bonus_days := 0,
                          current_status := "active",
                          status_changed_at := 0, is_premium := false,
                          premium_since := none,
                          last_billing_date := none }],
      payments := [{ payment_id := 1, user_id := 1, amount := 199,
                     currency := "RUB", payment_method := "tbank",
                     payment_status := "pending",
                     telegram_payment_charge_id := none,
                     days_awarded := 30, created_at := 0,
                     completed_at := none }],
      next_user_id := 2, next_payment_id := 2 }

/-- The first success callback for the still-pending payment of the C2
pending fixture. -/
def c2resPending : DB × Bool × String :=
  process_tbank_callback c2dbPending true 1 "success" (some "ch1") 10

/-- Fixture for C3: user 2 was referred by user 1; user 2 already has one
successful payment on record, so any payment processed now is not its
first. -/
def c3db : DB :=
  { emptyDB with
      users := [{ user_id := 1, telegram_id := 100, referrer_id := none,
                  is_sub_active := false },
                { user_id := 2, telegram_id := 200, referrer_id := some 1,
                  is_sub_active := false }],
      user_balances := [{ user_id := 1, trial_days := 0, paid_until := none,
                          bonus_days := 0, current_status := "frozen",
                          status_changed_at := 0, is_premium := false,
                          premium_since := none, last_billing_date := none },
                        { user_id := 2, trial_days := 0, paid_until := none,
                          bonus_days := 0, current_status := "frozen",
                          status_changed_at := 0, is_premium := false,
                          premium_since := none,
                          last_billing_date := none }],
      payments := [{ payment_id := 1, user_id := 2, amount := 199,
                     currency := "RUB", payment_method := "tbank",
                     payment_status := "success",
                     telegram_payment_charge_id := none,
                     days_awarded := 30, created_at := 0,
                     completed_at := some 1 }],
      next_user_id := 3, next_payment_id := 2 }

/-- The referral path run once on the C3 fixture (for a payment that is
not user 2's first). -/
def c3res1 : DB := process_referral_payment c3db 2 10

/-- The referral path run a second time on the C3 fixture. -/
def c3res2 : DB := process_referral_payment c3res1 2 11

/-- The mutating store and lifecycle operations of the model, enumerated so
that a property can be quantified over every write path at once. -/
inductive Op where
  | addTrial (uid : Nat) (days : Int)
  | addPaid (uid : Nat) (days : Int)
  | addBonus (uid : Nat) (days : Int)
  | consume (uid : Nat)
  | createUser (telegram_id : Int) (referrer : Option Nat)
  | setSub (uid : Nat) (active : Bool)
  | createReferral (referrer referred : Nat) (event_type : String)
      (pending_days : Int)
  | markRewarded (event_id : Nat) (reward_type : String) (days : Int)
  | createPay (uid : Nat) (amount : Int) (currency payment_method : String)
      (days : Int)
  | updatePay (payment_id : Nat) (status : String) (charge : Option String)
  | cleanup (days_to_keep : Int)
  | userStatus (uid : Nat) (sub : Option Bool)
  deriving Repr, DecidableEq

/-- Interpretation of an `Op` as the corresponding model operation. -/
def applyOp (op : Op) (db : DB) (now : Int) : DB :=
  match op with
  | .addTrial uid days => add_trial_days db uid days
  | .addPaid uid days => add_paid_days db uid days now
  | .addBonus uid days => add_bonus_days db uid days now
  | .consume uid => (consume_day db uid now).1
  | .createUser tid ref => (create_or_update_user db tid ref now).1
  | .setSub uid active => update_subscription_status db uid active
  | .createReferral r d et pd => (create_referral_event db r d et pd now).1
  | .markRewarded eid rt days => mark_referral_rewarded db eid rt days
  | .createPay uid amount cur mth days =>
      (create_payment db uid amount cur mth days now).1
  | .updatePay pid st ch => update_payment_status db pid st ch now
  | .cleanup keep => (cleanup_expired_users db keep now).1
  | .userStatus uid sub => (get_user_status db uid sub now).1

/-- Fixture balance for C7: no bonus days, not premium. -/
def c7bal : Balance :=
  { user_id := 1, trial_days := 0, paid_until := none, bonus_days := 0,
    current_status := "frozen", status_changed_at := 0, is_premium := false,
    premium_since := none, last_billing_date := none }

/-- Fixture for C7's grant conjuncts. -/
def c7db : DB :=
  { emptyDB with
      users := [{ user_id := 1, telegram_id := 100, referrer_id := none,
                  is_sub_active := false }],
      user_balances := [c7bal],
      next_user_id := 2 }

/-- Fixture balance for C7's downgrade conjunct: subscribed user with one
trial day, ten bonus days and a stale true premium flag. -/
def c7bal2 : Balance :=
  { user_id := 1, trial_days := 1, paid_until := none, bonus_days := 10,
    current_status := "active", status_changed_at := 0, is_premium := true,
    premium_since := some 0, last_billing_date := none }

/-- Fixture for C7's downgrade and preservation conjuncts. -/
def c7db2 : DB :=
  { emptyDB with
      users := [{ user_id := 1, telegram_id := 100, referrer_id := none,
                  is_sub_active := true }],
      user_balances := [c7bal2],
      next_user_id := 2 }

/-- Rows transformed by a `user_id`-preserving function are found at the
same key: a SELECT after an UPDATE returns the transformed row. -/
theorem find?_map_pres (g : Balance → Balance)
    (hg : ∀ b, (g b).user_id = b.user_id) (uid : Nat) :
    ∀ l : List Balance,
      (l.map g).find? (fun b => b.user_id == uid)
        = (l.find? (fun b => b.user_id == uid)).map g
  | [] => rfl
  | a :: l => by
    by_cases h : a.user_id = uid
    · have e1 : (g a :: l.map g).find? (fun b => b.user_id == uid)
          = some (g a) :=
        List.find?_cons_of_pos _ (by simpa [hg] using h)
      have e2 : (a :: l).find? (fun b => b.user_id == uid) = some a :=
        List.find?_cons_of_pos _ (by simpa using h)
      simp only [List.map_cons]
      rw [e1, e2]
      rfl
    · have e1 : (g a :: l.map g).find? (fun b => b.user_id == uid)
          = (l.map g).find? (fun b => b.user_id == uid) :=
        List.find?_cons_of_neg _ (by simpa [hg] using h)
      have e2 : (a :: l).find? (fun b => b.user_id == uid)
          = l.find? (fun b => b.user_id == uid) :=
        List.find?_cons_of_neg _ (by simpa using h)
      simp only [List.map_cons]
      rw [e1, e2]
      exact find?_map_pres g hg uid l

/-- SELECT after UPDATE: looking any user up after `updBalance` returns the
old row, transformed when it is the updated one. -/
theorem findBalance_updBalance (db : DB) (uid uid2 : Nat)
    (f : Balance → Balance) (hf : ∀ b, (f b).user_id = b.user_id) :
    findBalance (updBalance db uid f) uid2 =
      (findBalance db uid2).map
        (fun b => if b.user_id == uid then f b else b) := by
  unfold findBalance updBalance
  exact find?_map_pres _
    (fun b => by by_cases h : b.user_id = uid <;> simp [h, hf]) uid2
    db.user_balances

/-- SELECT after UPDATE at the updated key. -/
theorem findBalance_updBalance_self (db : DB) (uid : Nat)
    (f : Balance → Balance) (hf : ∀ b, (f b).user_id = b.user_id)
    (b : Balance) (hb : findBalance db uid = some b) :
    findBalance (updBalance db uid f) uid = some (f b) := by
  rw [findBalance_updBalance db uid uid f hf, hb]
  have hbid : b.user_id = uid := by
    have := List.find?_some hb
    simpa using this
  simp [hbid]

/-- A map that touches no row (its guard is false on every element) is the
identity: an UPDATE whose WHERE clause matches nothing changes nothing. -/
theorem map_id_of_no_match (uid : Nat) (f : Balance → Balance) :
    ∀ l : List Balance, (∀ b ∈ l, (b.user_id == uid) = false) →
      l.map (fun b => if b.user_id == uid then f b else b) = l
  | [], _ => rfl
  | a :: l, h => by
    have ha := h a (by simp)
    simp only [List.map_cons, ha]
    rw [if_neg (by simp [ha]), map_id_of_no_match uid f l
      (fun b hb => h b (by simp [hb]))]

/-- UPDATE on a missing balance row is a no-op. -/
theorem updBalance_eq_of_none (db : DB) (uid : Nat) (f : Balance → Balance)
    (h : findBalance db uid = none) : updBalance db uid f = db := by
  unfold findBalance at h
  have hall := List.find?_eq_none.mp h
  unfold updBalance
  rw [map_id_of_no_match uid f db.user_balances
    (fun b hb => by simpa using hall b hb)]

/-- C1: the claim fails on the code.  Every balance-mutating operation
writes its transaction-log row through `log_days_transaction`, which opens
a fresh connection and closes it without commit, so the row is rolled back:
the committed `days_transactions` table is unchanged by all four
operations, while the balance update itself does commit (the fixture's
trial grant persists, leaving the log empty instead of one row per
mutation). -/
theorem c1_balance_mutations_commit_without_their_transaction_rows :
    (∀ db uid days, (add_trial_days db uid days).days_transactions
        = db.days_transactions) ∧
    (∀ db uid days now, (add_paid_days db uid days now).days_transactions
        = db.days_transactions) ∧
    (∀ db uid days now, (add_bonus_days db uid days now).days_transactions
        = db.days_transactions) ∧
    (∀ db uid now, ((consume_day db uid now).1).days_transactions
        = db.days_transactions) ∧
    trial_days_of (add_trial_days c1db 1 5) 1 = some 15 ∧
    (add_trial_days c1db 1 5).days_transactions = [] := by
  refine ⟨fun db uid days => rfl, fun db uid days now => rfl,
    fun db uid days now => ?_, fun db uid now => ?_, by decide, by decide⟩
  · simp only [add_bonus_days]
    split <;> rfl
  · simp only [consume_day, consume_day_bonus_or_expired]
    repeat' split
    all_goals rfl

/-- C5: the claim fails on the code.  On an exhausted account `consume_day`
returns False and leaves the counters untouched, as claimed, but the
`UPDATE ... SET current_status = 'expired'` is executed on a connection
that the `return False` closes before any `commit()`, and the DAYS_EXPIRED
audit entry goes through `log_audit`'s never-committed connection: the
durable database is bit-for-bit unchanged (status still 'active', audit
log still empty). -/
theorem c5_exhausted_account_expiry_rolled_back :
    consume_day c5db 1 10 = (c5db, false) ∧
    status_of c5db 1 = some "active" ∧
    c5db.audit_log = [] := by
  decide

/-- C8: two `create_referral_event` calls for the same referred id always
leave the second call rejected by the UNIQUE(referred_id) constraint with
the "already exists" result False and no new row, whatever the second
referrer, event type or timing — whether the first call inserted the edge
or an edge already existed. -/
theorem c8_second_referral_event_for_same_referred_rejected :
    ∀ (db : DB) (r1 r2 referred : Nat) (et1 et2 : String) (p1 p2 n1 n2 : Int),
      create_referral_event ((create_referral_event db r1 referred et1 p1 n1).1)
          r2 referred et2 p2 n2
        = ((create_referral_event db r1 referred et1 p1 n1).1, false) := by
  intro db r1 r2 referred et1 et2 p1 p2 n1 n2
  unfold create_referral_event
  by_cases h : db.referral_events.any (fun e => e.referred_id == referred)
  · simp [h]
  · simp [h, commit, List.any_append]

/-- C9 counterexample: on a database with no account 1, `consume_day`
silently returns the ordinary value False (the same result as an exhausted
account) and `add_trial_days` completes normally treating the missing
balance as zero, leaving the database unchanged; no NotFound failure is
signalled anywhere — the methods have no raising path for a missing row. -/
theorem c9_counterexample_unknown_account_is_silent :
    consume_day emptyDB 1 0 = (emptyDB, false) ∧
    add_trial_days emptyDB 1 5 = emptyDB := by
  decide

/-- C9 amended: for an unknown account, `consume_day` returns False as an
ordinary result before any write, and each grant operation treats the
missing balance row as balance zero — its UPDATE matches no row — and
completes without signalling, leaving the database unchanged. -/
theorem c9_unknown_account_ordinary_results
    (db : DB) (uid : Nat) (days now : Int)
    (h : findBalance db uid = none) :
    consume_day db uid now = (db, false) ∧
    add_trial_days db uid days = db ∧
    add_paid_days db uid days now = db ∧
    add_bonus_days db uid days now = db := by
  have hupd : ∀ f, updBalance db uid f = db :=
    fun f => updBalance_eq_of_none db uid f h
  refine ⟨?_, ?_, ?_, ?_⟩
  · unfold consume_day
    rw [h]
  · unfold add_trial_days
    rw [h]
    simp [log_days_transaction, rollback, commit, hupd]
  · unfold add_paid_days
    rw [h]
    simp [log_days_transaction, rollback, commit, hupd]
  · unfold add_bonus_days
    rw [h]
    split <;> simp [log_days_transaction, rollback, commit, hupd]

/-- C9 witness: the amended statement instantiated on the empty store. -/
theorem c9_unknown_account_ordinary_results_witness :
    consume_day emptyDB 2 0 = (emptyDB, false) ∧
    add_trial_days emptyDB 2 7 = emptyDB ∧
    add_paid_days emptyDB 2 7 0 = emptyDB ∧
    add_bonus_days emptyDB 2 7 0 = emptyDB :=
  c9_unknown_account_ordinary_results emptyDB 2 7 0 rfl

/-- C10: creating a previously unseen account inserts a balance row that
takes every schema default — in particular `trial_days = 10` — so a fresh
account has positive entitlement before any grant runs.  The freshness
hypotheses say the telegram id is new and the autoincrement id is unused,
which `create_or_update_user` guarantees for every real insert. -/
theorem c10_new_account_starts_with_ten_trial_days
    (db : DB) (telegram_id : Int) (referrer : Option Nat) (now : Int)
    (hfresh : ∀ u ∈ db.users, (u.telegram_id == telegram_id) = false)
    (hbal : ∀ b ∈ db.user_balances, (b.user_id == db.next_user_id) = false) :
    findBalance (create_or_update_user db telegram_id referrer now).1
        (create_or_update_user db telegram_id referrer now).2
      = some { user_id := db.next_user_id, trial_days := 10,
               paid_until := none, bonus_days := 0,
               current_status := "frozen", status_changed_at := now,
               is_premium := false, premium_since := none,
               last_billing_date := none } := by
  unfold create_or_update_user
  have hnone : db.users.find? (fun u => u.telegram_id == telegram_id) = none :=
    List.find?_eq_none.mpr (fun u hu => by simp [hfresh u hu])
  rw [hnone]
  simp only [log_audit, rollback, commit, findBalance, List.find?_append]
  have h1 : db.user_balances.find?
      (fun b => b.user_id == db.next_user_id) = none :=
    List.find?_eq_none.mpr (fun b hb => by simp [hbal b hb])
  rw [h1]
  simp

/-- Two successive UPDATEs on the same key compose. -/
theorem updBalance_updBalance (db : DB) (uid : Nat) (f g : Balance → Balance)
    (hf : ∀ b, (f b).user_id = b.user_id) :
    updBalance (updBalance db uid f) uid g
      = updBalance db uid (fun b => g (f b)) := by
  have hfun : ((fun b : Balance => if b.user_id == uid then g b else b) ∘
        (fun b : Balance => if b.user_id == uid then f b else b))
      = (fun b : Balance => if b.user_id == uid then g (f b) else b) := by
    funext b
    by_cases h : b.user_id = uid
    · simp [Function.comp, h, hf]
    · simp [Function.comp, h]
  unfold updBalance
  simp only [List.map_map, hfun]

/-- C4: `consume_day` deducts exactly one day in strict priority order
trial, then paid, then bonus, skipping an absent or elapsed paid period:
each branch changes only its own counter (plus the billing stamp) and
returns true.  On the fixture (trial 2, paid_until NULL, bonus 5) three
consecutive calls leave trial at 1, then 0, then deduct from bonus leaving
4 with paid still absent. -/
theorem c4_consume_day_strict_priority
    (db : DB) (uid : Nat) (now : Int) (b : Balance)
    (hb : findBalance db uid = some b) :
    (0 < b.trial_days →
      consume_day db uid now =
        (updBalance db uid (fun x =>
          { x with trial_days := b.trial_days - 1,
                   last_billing_date := some now }), true)) ∧
    (b.trial_days ≤ 0 → ∀ t, b.paid_until = some t → now < t →
      consume_day db uid now =
        (updBalance db uid (fun x =>
          { x with paid_until := some (t - 1),
                   last_billing_date := some now }), true)) ∧
    (b.trial_days ≤ 0 → (∀ t, b.paid_until = some t → t ≤ now) →
      0 < b.bonus_days →
      consume_day db uid now =
        (updBalance db uid (fun x =>
          { x with bonus_days := b.bonus_days - 1,
                   last_billing_date := some now }), true)) ∧
    (trial_days_of c4s1.1 1 = some 1 ∧ c4s1.2 = true ∧
     trial_days_of c4s2.1 1 = some 0 ∧ c4s2.2 = true ∧
     trial_days_of c4s3.1 1 = some 0 ∧ bonus_days_of c4s3.1 1 = some 4 ∧
     paid_until_of c4s3.1 1 = some none ∧ c4s3.2 = true) := by
  refine ⟨?_, ?_, ?_, by decide⟩
  · intro ht
    simp only [consume_day, hb, log_days_transaction, rollback, commit]
    rw [if_pos ht, updBalance_updBalance db uid]
    exact fun x => rfl
  · intro ht0 t hpt hnt
    simp only [consume_day, hb, hpt, log_days_transaction, rollback, commit]
    rw [if_neg (by omega), if_pos hnt, updBalance_updBalance db uid]
    exact fun x => rfl
  · intro ht0 hpaid hbonus
    cases hp : b.paid_until with
    | none =>
      simp only [consume_day, consume_day_bonus_or_expired, hb, hp,
        log_days_transaction, rollback, commit]
      rw [if_neg (by omega), if_pos hbonus, updBalance_updBalance db uid]
      exact fun x => rfl
    | some t =>
      have hle := hpaid t hp
      simp only [consume_day, consume_day_bonus_or_expired, hb, hp,
        log_days_transaction, rollback, commit]
      rw [if_neg (by omega), if_neg (by omega), if_pos hbonus,
        updBalance_updBalance db uid]
      exact fun x => rfl

/-- C4 witness: the priority theorem applied to the fixture's first call
(trial branch). -/
theorem c4_consume_day_strict_priority_witness :
    consume_day c4db 1 100 =
      (updBalance c4db 1 (fun x =>
        { x with trial_days := c4bal.trial_days - 1,
                 last_billing_date := some 100 }), true) :=
  (c4_consume_day_strict_priority c4db 1 100 c4bal rfl).1 (by decide)

/-- Equation for a single `add_paid_days` call on an existing balance
row. -/
theorem add_paid_days_eq (db : DB) (uid : Nat) (d now : Int) (b : Balance)
    (hb : findBalance db uid = some b) :
    add_paid_days db uid d now
      = updBalance db uid (fun x =>
          { x with paid_until := some (max now (coalesce b.paid_until now) + d) }) := by
  simp only [add_paid_days, hb, log_days_transaction, rollback, commit]

/-- C6: `add_paid_days` sets `paid_until` to `max(now, current) + days`, so
with nonnegative grants it never shortens the remaining paid time; two
immediate grants accumulate - `max(now, current) + d1 + d2` - which for an
account without a paid period is `now + d1 + d2` (so 10 then 5 gives
now + 15), and the accumulated value is at least what either single grant
alone would have produced. -/
theorem c6_add_paid_days_monotonic
    (db : DB) (uid : Nat) (now : Int) (b : Balance) (d1 d2 : Int)
    (hb : findBalance db uid = some b) (h1 : 0 ≤ d1) (h2 : 0 ≤ d2) :
    paid_until_of (add_paid_days db uid d1 now) uid
        = some (some (max now (coalesce b.paid_until now) + d1)) ∧
    (∀ t, b.paid_until = some t →
        t ≤ max now (coalesce b.paid_until now) + d1) ∧
    paid_until_of (add_paid_days (add_paid_days db uid d1 now) uid d2 now)
        uid
      = some (some (max now (coalesce b.paid_until now) + d1 + d2)) ∧
    (b.paid_until = none →
      paid_until_of (add_paid_days (add_paid_days db uid d1 now) uid d2 now)
          uid
        = some (some (now + d1 + d2))) ∧
    max now (coalesce b.paid_until now) + d1
        ≤ max now (coalesce b.paid_until now) + d1 + d2 ∧
    max now (coalesce b.paid_until now) + d2
        ≤ max now (coalesce b.paid_until now) + d1 + d2 := by
  have e1 := add_paid_days_eq db uid d1 now b hb
  have e2 : findBalance (add_paid_days db uid d1 now) uid
      = some { b with paid_until := some (max now (coalesce b.paid_until now) + d1) } := by
    rw [e1]
    exact findBalance_updBalance_self db uid
      (fun x => { x with paid_until := some (max now (coalesce b.paid_until now) + d1) })
      (fun x => rfl) b hb
  have hv : now ≤ max now (coalesce b.paid_until now) + d1 := by
    have hm := le_max_left now (coalesce b.paid_until now)
    omega
  have e3 := add_paid_days_eq (add_paid_days db uid d1 now) uid d2 now _ e2
  have hc : ∀ (v w : Int), coalesce (some v) w = v := fun v w => rfl
  simp only [hc] at e3
  rw [max_eq_right hv] at e3
  have e4 : findBalance (add_paid_days (add_paid_days db uid d1 now) uid d2 now) uid
      = some { b with paid_until := some (max now (coalesce b.paid_until now) + d1 + d2) } := by
    rw [e3]
    exact findBalance_updBalance_self _ uid
      (fun x => { x with paid_until := some (max now (coalesce b.paid_until now) + d1 + d2) })
      (fun x => rfl)
      { b with paid_until := some (max now (coalesce b.paid_until now) + d1) } e2
  refine ⟨?_, ?_, ?_, ?_, by omega, by omega⟩
  · simp only [paid_until_of, e2]
    rfl
  · intro t ht
    rw [ht]
    simp only [coalesce]
    have hm := le_max_right now t
    omega
  · simp only [paid_until_of, e4]
    rfl
  · intro hnone
    simp only [paid_until_of, e4]
    rw [hnone]
    simp only [coalesce]
    rw [max_self]
    rfl

/-- C6 witness: granting 10 then immediately 5 paid days to an account
without a paid period yields paid_until = now + 15. -/
theorem c6_add_paid_days_monotonic_witness :
    paid_until_of (add_paid_days (add_paid_days c6db 1 10 0) 1 5 0) 1
      = some (some (0 + 10 + 5)) :=
  (c6_add_paid_days_monotonic c6db 1 0 c6bal 10 5 rfl (by decide)
    (by decide)).2.2.2.1 rfl

/-- C10 witness: the first user registered on an empty store gets the
ten-day trial balance. -/
theorem c10_new_account_witness :
    findBalance (create_or_update_user emptyDB 7 none 3).1
        (create_or_update_user emptyDB 7 none 3).2
      = some { user_id := 1, trial_days := 10, paid_until := none,
               bonus_days := 0, current_status := "frozen",
               status_changed_at := 3, is_premium := false,
               premium_since := none, last_billing_date := none } :=
  c10_new_account_starts_with_ten_trial_days emptyDB 7 none 3
    (by simp [emptyDB]) (by simp [emptyDB])

/-- C2: the claim fails on the code, though not by double-crediting.
payments.py never imports `aiosqlite`, so the success branch raises
NameError at `conn.row_factory = aiosqlite.Row` before the payment lookup,
and the blanket except turns every verified success callback — duplicate
or first — into an error result with no writes.  A duplicate callback for
an already-'success' payment does leave the Payment row and the ledger
untouched, but not because the duplicate is detected: the handler behaves
identically on a still-pending payment, never transitioning it to
'success' and never applying credit, so credit is not applied on the
pending-to-success transition either. -/
theorem c2_success_callback_always_errors_without_writes :
    c2res = (c2db, false,
      "processing_error: NameError: name aiosqlite is not defined") ∧
    c2resPending = (c2dbPending, false,
      "processing_error: NameError: name aiosqlite is not defined") := by
  decide

/-- C3: the claim fails on the code.  The referral path actually invoked on
payment success, `PaymentProcessor._process_referral_payment`, checks
neither that the payment is the referred account's first successful one nor
any reward state on the referral edge (its only guard,
`db.mark_referral_payment_event`, does not exist on `Database` and the
AttributeError is swallowed): on the fixture, whose processed payment is
user 2's second successful payment, the referrer is still credited 15 bonus
days and the payer 10, and a replay credits both again (referrer reaches
30, payer 20), with no referral event row ever written. -/
theorem c3_referral_reward_repeats_on_every_payment :
    (c3db.payments.filter
        (fun p => p.user_id == 2 && p.payment_status == "success")).length
      = 1 ∧
    bonus_days_of c3res1 1 = some 15 ∧
    bonus_days_of c3res1 2 = some 10 ∧
    bonus_days_of c3res2 1 = some 30 ∧
    bonus_days_of c3res2 2 = some 20 ∧
    c3res2.referral_events = [] := by
  decide

/-- A row map that preserves `user_id` and the truth of `is_premium` keeps
a premium user premium. -/
theorem is_premium_of_map_pres (db : DB) (uid : Nat) (g : Balance → Balance)
    (hg1 : ∀ b, (g b).user_id = b.user_id)
    (hg2 : ∀ b, b.is_premium = true → (g b).is_premium = true)
    (h : is_premium_of db uid = some true) :
    is_premium_of { db with user_balances := db.user_balances.map g } uid
      = some true := by
  unfold is_premium_of findBalance at h ⊢
  rw [find?_map_pres g hg1 uid]
  cases hf : db.user_balances.find? (fun b => b.user_id == uid) with
  | none =>
    rw [hf] at h
    simp at h
  | some b =>
    rw [hf] at h
    have hb2 : b.is_premium = true := by simpa using h
    simp [hg2 b hb2]

/-- An UPDATE whose row function preserves `user_id` and the truth of
`is_premium` keeps a premium user premium. -/
theorem is_premium_of_updBalance_pres (db : DB) (uid2 uid : Nat)
    (f : Balance → Balance) (hf1 : ∀ b, (f b).user_id = b.user_id)
    (hf2 : ∀ b, b.is_premium = true → (f b).is_premium = true)
    (h : is_premium_of db uid = some true) :
    is_premium_of (updBalance db uid2 f) uid = some true := by
  unfold updBalance
  exact is_premium_of_map_pres db uid
    (fun b => if b.user_id == uid2 then f b else b)
    (fun b => by by_cases hc : b.user_id = uid2 <;> simp [hc, hf1])
    (fun b hb => by by_cases hc : b.user_id = uid2 <;> simp [hc, hb, hf2]) h

/-- An UPDATE whose row function does not touch `is_premium` at all leaves
every user's premium flag unchanged. -/
theorem is_premium_of_updBalance_eq (db : DB) (uid2 uid : Nat)
    (f : Balance → Balance) (hf1 : ∀ b, (f b).user_id = b.user_id)
    (hf2 : ∀ b, (f b).is_premium = b.is_premium) :
    is_premium_of (updBalance db uid2 f) uid = is_premium_of db uid := by
  unfold is_premium_of
  rw [findBalance_updBalance db uid2 uid f hf1]
  cases findBalance db uid with
  | none => rfl
  | some b => by_cases hc : b.user_id = uid2 <;> simp [hc, hf2]

/-- Appended rows do not change the premium flag of a user who already has
a balance row. -/
theorem is_premium_of_append_pres (db : DB) (uid : Nat) (l : List Balance)
    (h : is_premium_of db uid = some true) :
    is_premium_of { db with user_balances := db.user_balances ++ l } uid
      = some true := by
  unfold is_premium_of findBalance at h ⊢
  rw [List.find?_append]
  cases hf : db.user_balances.find? (fun b => b.user_id == uid) with
  | none =>
    rw [hf] at h
    simp at h
  | some b =>
    rw [hf] at h
    simpa using h

/-- The status-persisting tail of `get_user_status` never touches the
premium flag. -/
theorem status_change_tail_premium (db : DB) (uid2 uid : Nat)
    (b0 : Option Balance) (st : String) (now : Int) :
    is_premium_of (status_change_tail db uid2 b0 st now) uid
      = is_premium_of db uid := by
  unfold status_change_tail handle_status_change update_user_status
  simp only [log_audit, rollback, commit]
  split
  · split
    · exact is_premium_of_updBalance_eq db uid2 uid
        (fun b => { b with current_status := st, status_changed_at := now })
        (fun x => rfl) (fun x => rfl)
    · exact is_premium_of_updBalance_eq db uid2 uid
        (fun b => { b with current_status := st, status_changed_at := now })
        (fun x => rfl) (fun x => rfl)
  · rfl

/-- Equation for a single `add_bonus_days` call on an existing balance
row. -/
theorem add_bonus_days_eq (db : DB) (uid : Nat) (days now : Int)
    (b : Balance) (hb : findBalance db uid = some b) :
    add_bonus_days db uid days now
      = if b.bonus_days + days ≥ 30 then
          updBalance db uid (fun x =>
            { x with bonus_days := b.bonus_days + days, is_premium := true,
                     premium_since := some (coalesce x.premium_since now) })
        else
          updBalance db uid (fun x =>
            { x with bonus_days := b.bonus_days + days }) := by
  simp only [add_bonus_days, hb, log_days_transaction, rollback, commit]

/-- Daily consumption never touches the premium flag of any user. -/
theorem consume_day_preserves_premium (db : DB) (uid2 uid : Nat) (now : Int)
    (h : is_premium_of db uid = some true) :
    is_premium_of (consume_day db uid2 now).1 uid = some true := by
  cases hfb : findBalance db uid2 with
  | none =>
    simp only [consume_day, hfb]
    exact h
  | some b =>
    by_cases ht : b.trial_days > 0
    · simp only [consume_day, hfb, log_days_transaction, rollback, commit]
      rw [if_pos ht]
      exact is_premium_of_updBalance_pres _ uid2 uid
        (fun x => { x with last_billing_date := some now }) (fun x => rfl)
        (fun x hx => hx)
        (is_premium_of_updBalance_pres db uid2 uid
          (fun x => { x with trial_days := b.trial_days - 1 })
          (fun x => rfl) (fun x hx => hx) h)
    · cases hp : b.paid_until with
      | some t =>
        by_cases htn : t > now
        · simp only [consume_day, hfb, hp, log_days_transaction, rollback,
            commit]
          rw [if_neg ht, if_pos htn]
          exact is_premium_of_updBalance_pres _ uid2 uid
            (fun x => { x with last_billing_date := some now }) (fun x => rfl)
            (fun x hx => hx)
            (is_premium_of_updBalance_pres db uid2 uid
              (fun x => { x with paid_until := some (t - 1) })
              (fun x => rfl) (fun x hx => hx) h)
        · by_cases hbb : b.bonus_days > 0
          · simp only [consume_day, consume_day_bonus_or_expired, hfb, hp,
              log_days_transaction, rollback, commit]
            rw [if_neg ht, if_neg htn, if_pos hbb]
            exact is_premium_of_updBalance_pres _ uid2 uid
              (fun x => { x with last_billing_date := some now })
              (fun x => rfl) (fun x hx => hx)
              (is_premium_of_updBalance_pres db uid2 uid
                (fun x => { x with bonus_days := b.bonus_days - 1 })
                (fun x => rfl) (fun x hx => hx) h)
          · simp only [consume_day, consume_day_bonus_or_expired, hfb, hp,
              log_audit, rollback]
            rw [if_neg ht, if_neg htn, if_neg hbb]
            exact h
      | none =>
        by_cases hbb : b.bonus_days > 0
        · simp only [consume_day, consume_day_bonus_or_expired, hfb, hp,
            log_days_transaction, rollback, commit]
          rw [if_neg ht, if_pos hbb]
          exact is_premium_of_updBalance_pres _ uid2 uid
            (fun x => { x with last_billing_date := some now }) (fun x => rfl)
            (fun x hx => hx)
            (is_premium_of_updBalance_pres db uid2 uid
              (fun x => { x with bonus_days := b.bonus_days - 1 })
              (fun x => rfl) (fun x hx => hx) h)
        · simp only [consume_day, consume_day_bonus_or_expired, hfb, hp,
            log_audit, rollback]
          rw [if_neg ht, if_neg hbb]
          exact h

/-- On the subscribed-with-days path, `get_user_status` recomputes the
premium flag strictly from the bonus balance and then only persists the
status. -/
theorem get_user_status_active_eq (db : DB) (uid : Nat) (now : Int)
    (u : User) (b : Balance) (hu : findUser db uid = some u)
    (hsub : u.is_sub_active = true) (hb : findBalance db uid = some b)
    (htot : 0 < totalActiveDays b now) :
    (get_user_status db uid none now).1
      = status_change_tail
          (if decide (b.bonus_days ≥ 30) != b.is_premium then
             update_user_premium_status db uid (decide (b.bonus_days ≥ 30))
               now
           else db)
          uid (some b) "active" now := by
  simp only [get_user_status, hu, hb, hsub, Bool.not_true, if_pos htot,
    Bool.false_eq_true, if_false]

/-- C7: premium lifecycle.  (1) `add_bonus_days` leaves `is_premium` true
exactly when it was already true or the new bonus balance reaches 30 — in
particular it never downgrades.  (2) An existing `premium_since` value is
never overwritten.  (3) Crossing the threshold with no prior
`premium_since` stamps it with the current time.  (4) The lifecycle status
recompute on a subscribed account with remaining days recomputes the flag
strictly from `bonus_days >= 30`, so below 30 it comes out false.  (5)
Every other modelled write path preserves a true premium flag: the status
recompute is the only downgrade path. -/
theorem c7_premium_threshold_and_single_downgrade_path :
    (∀ db uid days now b, findBalance db uid = some b →
      is_premium_of (add_bonus_days db uid days now) uid
        = some (b.is_premium || decide (b.bonus_days + days ≥ 30))) ∧
    (∀ db uid days now b s, findBalance db uid = some b →
      b.premium_since = some s →
      premium_since_of (add_bonus_days db uid days now) uid
        = some (some s)) ∧
    (∀ db uid days now b, findBalance db uid = some b →
      b.premium_since = none → b.bonus_days + days ≥ 30 →
      premium_since_of (add_bonus_days db uid days now) uid
        = some (some now)) ∧
    (∀ db uid now u b, findUser db uid = some u → u.is_sub_active = true →
      findBalance db uid = some b → 0 < totalActiveDays b now →
      b.bonus_days < 30 →
      is_premium_of (get_user_status db uid none now).1 uid = some false) ∧
    (∀ op : Op, (∀ uid2 sub, op ≠ Op.userStatus uid2 sub) →
      ∀ db now uid, is_premium_of db uid = some true →
        is_premium_of (applyOp op db now) uid = some true) := by
  refine ⟨?_, ?_, ?_, ?_, ?_⟩
  · intro db uid days now b hb
    rw [add_bonus_days_eq db uid days now b hb]
    by_cases hge : b.bonus_days + days ≥ 30
    · rw [if_pos hge]
      simp only [is_premium_of]
      rw [findBalance_updBalance_self db uid
        (fun x => { x with bonus_days := b.bonus_days + days, is_premium := true, premium_since := some (coalesce x.premium_since now) })
        (fun x => rfl) b hb]
      simp [hge]
    · rw [if_neg hge]
      simp only [is_premium_of]
      rw [findBalance_updBalance_self db uid
        (fun x => { x with bonus_days := b.bonus_days + days })
        (fun x => rfl) b hb]
      simp [hge]
  · intro db uid days now b s hb hs
    rw [add_bonus_days_eq db uid days now b hb]
    by_cases hge : b.bonus_days + days ≥ 30
    · rw [if_pos hge]
      simp only [premium_since_of]
      rw [findBalance_updBalance_self db uid
        (fun x => { x with bonus_days := b.bonus_days + days, is_premium := true, premium_since := some (coalesce x.premium_since now) })
        (fun x => rfl) b hb]
      simp [hs, coalesce]
    · rw [if_neg hge]
      simp only [premium_since_of]
      rw [findBalance_updBalance_self db uid
        (fun x => { x with bonus_days := b.bonus_days + days })
        (fun x => rfl) b hb]
      simp [hs]
  · intro db uid days now b hb hs hge
    rw [add_bonus_days_eq db uid days now b hb, if_pos hge]
    simp only [premium_since_of]
    rw [findBalance_updBalance_self db uid
      (fun x => { x with bonus_days := b.bonus_days + days, is_premium := true, premium_since := some (coalesce x.premium_since now) })
      (fun x => rfl) b hb]
    simp [hs, coalesce]
  · intro db uid now u b hu hsub hb htot hlt
    rw [get_user_status_active_eq db uid now u b hu hsub hb htot,
      status_change_tail_premium]
    have hd : decide (b.bonus_days ≥ 30) = false :=
      decide_eq_false (by omega)
    rw [hd]
    cases hpb : b.is_premium with
    | true =>
      show is_premium_of (update_user_premium_status db uid false now) uid
          = some false
      show is_premium_of
          (commit (updBalance db uid (fun x => { x with is_premium := false })))
          uid = some false
      simp only [commit, is_premium_of]
      rw [findBalance_updBalance_self db uid
        (fun x => { x with is_premium := false }) (fun x => rfl) b hb]
      rfl
    | false =>
      show is_premium_of db uid = some false
      simp [is_premium_of, hb, hpb]
  · intro op hne db now uid h
    cases op with
    | addTrial uid2 days =>
      cases hfb : findBalance db uid2 with
      | none =>
        simp only [applyOp, add_trial_days, hfb, log_days_transaction,
          rollback, commit]
        rw [updBalance_eq_of_none db uid2 _ hfb]
        exact h
      | some b =>
        simp only [applyOp, add_trial_days, hfb, log_days_transaction,
          rollback, commit]
        exact is_premium_of_updBalance_pres db uid2 uid
          (fun x => { x with trial_days := b.trial_days + days })
          (fun x => rfl) (fun x hx => hx) h
    | addPaid uid2 days =>
      cases hfb : findBalance db uid2 with
      | none =>
        simp only [applyOp, add_paid_days, hfb, log_days_transaction,
          rollback, commit]
        rw [updBalance_eq_of_none db uid2 _ hfb]
        exact h
      | some b =>
        simp only [applyOp]
        rw [add_paid_days_eq db uid2 days now b hfb]
        exact is_premium_of_updBalance_pres db uid2 uid
          (fun x => { x with paid_until := some (max now (coalesce b.paid_until now) + days) })
          (fun x => rfl) (fun x hx => hx) h
    | addBonus uid2 days =>
      cases hfb : findBalance db uid2 with
      | none =>
        simp only [applyOp, add_bonus_days, hfb, log_days_transaction,
          rollback, commit]
        split <;> (rw [updBalance_eq_of_none db uid2 _ hfb]; exact h)
      | some b =>
        simp only [applyOp]
        rw [add_bonus_days_eq db uid2 days now b hfb]
        split
        · exact is_premium_of_updBalance_pres db uid2 uid
            (fun x => { x with bonus_days := b.bonus_days + days, is_premium := true, premium_since := some (coalesce x.premium_since now) })
            (fun x => rfl) (fun x hx => rfl) h
        · exact is_premium_of_updBalance_pres db uid2 uid
            (fun x => { x with bonus_days := b.bonus_days + days })
            (fun x => rfl) (fun x hx => hx) h
    | consume uid2 =>
      exact consume_day_preserves_premium db uid2 uid now h
    | createUser tid ref =>
      cases hu : db.users.find? (fun x => x.telegram_id == tid) with
      | some x =>
        simp only [applyOp, create_or_update_user, hu, commit]
        exact h
      | none =>
        simp only [applyOp, create_or_update_user, hu, log_audit, rollback,
          commit]
        exact is_premium_of_append_pres db uid
          [{ user_id := db.next_user_id, trial_days := 10,
             paid_until := none, bonus_days := 0,
             current_status := "frozen", status_changed_at := now,
             is_premium := false, premium_since := none,
             last_billing_date := none }] h
    | setSub uid2 active =>
      exact h
    | createReferral r d et pd =>
      by_cases hc : db.referral_events.any (fun e => e.referred_id == d)
      · simp only [applyOp, create_referral_event, if_pos hc]
        exact h
      · simp only [applyOp, create_referral_event, if_neg hc]
        exact h
    | markRewarded eid rt days =>
      exact h
    | createPay uid2 amount cur mth days =>
      exact h
    | updatePay pid st ch =>
      exact h
    | cleanup keep =>
      simp only [applyOp, cleanup_expired_users, commit]
      exact is_premium_of_map_pres db uid
        (fun b => if b.current_status == "expired" &&
                     b.status_changed_at ≤ now - keep
                  then { b with current_status := "deleted" } else b)
        (fun b => by beta_reduce; split <;> rfl)
        (fun b hb2 => by beta_reduce; split <;> exact hb2) h
    | userStatus uid2 sub =>
      exact absurd rfl (hne uid2 sub)

/-- C7 witness: the premium theorem instantiated on a threshold-crossing
grant, on a lifecycle downgrade, and on a premium-preserving trial
grant. -/
theorem c7_premium_witness :
    is_premium_of (add_bonus_days c7db 1 30 5) 1
      = some (c7bal.is_premium || decide (c7bal.bonus_days + 30 ≥ 30)) ∧
    premium_since_of (add_bonus_days c7db 1 30 5) 1 = some (some 5) ∧
    is_premium_of (get_user_status c7db2 1 none 0).1 1 = some false ∧
    is_premium_of (applyOp (Op.addTrial 1 3) c7db2 0) 1 = some true := by
  have h := c7_premium_threshold_and_single_downgrade_path
  refine ⟨h.1 c7db 1 30 5 c7bal rfl, ?_, ?_, ?_⟩
  · exact h.2.2.1 c7db 1 30 5 c7bal rfl rfl (by decide)
  · exact h.2.2.2.1 c7db2 1 0 _ c7bal2 rfl rfl rfl (by decide) (by decide)
  · exact h.2.2.2.2 (Op.addTrial 1 3)
      (fun uid2 sub h2 => Op.noConfusion h2) c7db2 0 1 (by decide)

end CodeMaster
